import Mathlib

set_option maxRecDepth 4096

/-!
Verification of the sandboxed code-execution engine of the repository
(src/tools/code-execution/controller.py and
src/tools/code-execution/secure_sandbox.py).

The Python source is shallowly embedded: the static validator
(`validate_code`) is translated literally (substring denylist scan plus the
hand-compiled forms of its regular expressions); the control flow of
`execute_code_safely` is translated as a function over an explicit
description of what happens inside the guarded region (the snippet either
completes or raises a given exception); the expression sub-language that the
spec's concrete test snippets use (integer literals, names, `+`, a single
call) is given a parser and evaluator mirroring Python `eval` on that
fragment, returning `none` outside it.
-/

namespace CodeExec

/-! ## Basic string machinery (Python `str.lower`, substring containment) -/

/-- ASCII lower-casing of a character list, mirroring Python `str.lower`
on the ASCII snippets and patterns involved. -/
def lowerL (l : List Char) : List Char := l.map Char.toLower

/-- `containsSub hay pat` is Python's `pat in hay` substring test. -/
def containsSub (hay pat : List Char) : Bool :=
  (List.range (hay.length + 1)).any (fun i => pat.isPrefixOf (hay.drop i))

/-- Substring test on strings. -/
def strContains (hay pat : String) : Bool := containsSub hay.data pat.data

/-- Lower-cased copy of a string. -/
def lowerStr (s : String) : String := ⟨lowerL s.data⟩

/-! ## The denylist (controller.py, validate_code, lines 98-145) -/

/-- The `dangerous_patterns` list of `validate_code`, transcribed in source
order (duplicates included). -/
def dangerous_patterns : List String := [
  "import os", "import sys", "import subprocess", "import socket",
  "import urllib", "import requests", "import http", "import shutil",
  "import tempfile", "import threading", "import multiprocessing",
  "import ctypes", "import platform", "import inspect",
  "open(", "file(", "exec(", "eval(", "compile(",
  "__import__", "__builtins__", "__globals__", "__locals__",
  "globals()", "getattr(", "setattr(", "delattr(",
  "input(", "raw_input(",
  "exit(", "quit(", "sys.exit",
  "os.", "sys.", "subprocess.", "socket.",
  "urllib.", "requests.", "http.", "shutil.",
  "__file__", "__name__", "__doc__", "__package__",
  "reload(", "importlib",
  "pickle", "cPickle", "marshal", "shelve",
  "code.", "ast.", "compile",
  "lambda:", "chr(", "ord(", "hex(", "oct(",
  "\\x", "\\u", "\\U", "\\n", "\\r", "\\t",
  "dir(", "vars(", "help(", "id(",
  "hasattr(", "callable(",
  "__dict__", "__class__", "__module__", "__weakref__",
  "property(", "staticmethod(", "classmethod(",
  "type(", "super(", "isinstance(", "issubclass(",
  "memoryview(", "bytearray(", "bytes(",
  ".join(", ".format(", "f\"", "f\x27",
  "+ \"", "+ \x27", "\" +", "\x27 +",
  "getattr", "setattr", "delattr", "hasattr",
  "vars()", "dir()", "__dict__",
  "with open", "file.", "pathlib", "glob",
  "signal.", "threading.", "multiprocessing.",
  "ctypes.", "platform.", "inspect.",
  "builtins.", "warnings.", "traceback.",
  "socket", "urllib", "ftplib", "smtplib",
  "telnetlib", "xmlrpc", "http.server",
  "resource.", "signal.", "atexit.",
  "compile", "exec", "eval", "execfile",
  "platform.", "pwd.", "grp.", "spwd.",
  "sqlite3", "psycopg2", "mysql", "pymongo"
]

/-- Source text of the three `obfuscation_patterns` regular expressions of
`validate_code` (controller.py lines 148-155), kept verbatim as data; their
matching semantics are the `match*At` functions below. -/
def obfuscation_patterns : List String := [
  "[\"\\\x27][^\"\\\x27]*[\"\\\x27]\\s*\\+\\s*[\"\\\x27][^\"\\\x27]*[\"\\\x27]",
  "\\w+\\s*=\\s*[\"\\\x27][^\"\\\x27]*[\"\\\x27].*(?:exec|eval)",
  "(?:exec|eval)\\s*\\(\\s*\\w+\\s*\\)"
]

/-! ## Hand-compiled matchers for the validator's regular expressions -/

/-- A Python string-literal quote (the regexes treat both quote kinds). -/
def isPyQuote (c : Char) : Bool := c = '"' || c = Char.ofNat 39

/-- Python regex `\s` (ASCII whitespace as the snippets use it). -/
def isPySpace (c : Char) : Bool :=
  c = ' ' || c = '\t' || c = '\n' || c = '\r' || c = Char.ofNat 11 || c = Char.ofNat 12

/-- Python regex `\w` on ASCII text. -/
def isPyWord (c : Char) : Bool := c.isAlpha || c.isDigit || c = '_'

/-- Consume `\s*`. -/
def dropPySpaces (l : List Char) : List Char := l.dropWhile isPySpace

/-- Consume `["'][^"']*["']` at the head; return the rest on success.
The character class excludes both quotes, so the scan is deterministic. -/
def dropStringLiteral (l : List Char) : Option (List Char) :=
  match l with
  | c :: rest =>
    if isPyQuote c then
      match rest.dropWhile (fun d => !(isPyQuote d)) with
      | d :: rest2 => if isPyQuote d then some rest2 else none
      | [] => none
    else none
  | [] => none

/-- Regex 1 at a position: `["'][^"']*["']\s*\+\s*["'][^"']*["']`. -/
def matchConcatAt (l : List Char) : Bool :=
  match dropStringLiteral l with
  | some r1 =>
    match dropPySpaces r1 with
    | '+' :: r2 => (dropStringLiteral (dropPySpaces r2)).isSome
    | _ => false
  | none => false

/-- Case-insensitive prefix test against a (lower-case) pattern. -/
def ciPrefix (pat : List Char) (l : List Char) : Bool :=
  pat.isPrefixOf (lowerL (l.take pat.length))

/-- After the assigned string literal, regex 2 needs `.*(?:exec|eval)`:
an `exec`/`eval` occurrence (case-insensitive) not preceded by a newline,
since `.` does not match newlines. -/
def execEvalBeforeNewline : List Char → Bool
  | [] => false
  | c :: rest =>
    if c = '\n' then false
    else if ciPrefix "exec".data (c :: rest) || ciPrefix "eval".data (c :: rest) then true
    else execEvalBeforeNewline rest

/-- Regex 2 at a position: `\w+\s*=\s*["'][^"']*["'].*(?:exec|eval)`. -/
def matchAssignExecAt (l : List Char) : Bool :=
  match l with
  | c :: rest =>
    if isPyWord c then
      match dropPySpaces (rest.dropWhile isPyWord) with
      | '=' :: r2 =>
        match dropStringLiteral (dropPySpaces r2) with
        | some r3 => execEvalBeforeNewline r3
        | none => false
      | _ => false
    else false
  | [] => false

/-- Regex 3 at a position: `(?:exec|eval)\s*\(\s*\w+\s*\)`. -/
def matchExecCallAt (l : List Char) : Bool :=
  if ciPrefix "exec".data l || ciPrefix "eval".data l then
    match dropPySpaces (l.drop 4) with
    | '(' :: r1 =>
      match dropPySpaces r1 with
      | c :: r2 =>
        if isPyWord c then
          match dropPySpaces (r2.dropWhile isPyWord) with
          | ')' :: _ => true
          | _ => false
        else false
      | [] => false
    | _ => false
  else false

/-- Regex `__import__\s*\(` at a position (case-sensitive). -/
def matchImportCallAt (l : List Char) : Bool :=
  if "__import__".data.isPrefixOf l then
    match dropPySpaces (l.drop 10) with
    | '(' :: _ => true
    | _ => false
  else false

/-- Regex `\.\s*__\w+__` at a position (case-sensitive); the `\w+` run is
allowed to backtrack, so a match is an existential over its length. -/
def matchDunderAt (l : List Char) : Bool :=
  match l with
  | '.' :: r =>
    match dropPySpaces r with
    | '_' :: '_' :: r2 =>
      (List.range r2.length).any (fun k =>
        ((r2.take (k + 1)).all isPyWord) &&
          ['_', '_'].isPrefixOf (r2.drop (k + 1)))
    | _ => false
  | _ => false

/-- `re.search` of a position matcher: a match may start anywhere. -/
def searchAnywhere (m : List Char → Bool) (l : List Char) : Bool :=
  (List.range (l.length + 1)).any (fun i => m (l.drop i))

/-! ## validate_code (controller.py lines 96-178) -/

/-- Prefix of the rejection message naming a matched denylist pattern. -/
def dangerOpMsg (p : String) : String :=
  "Code contains potentially dangerous operation: " ++ p

/-- The first denylisted substring matched by the scan loop (lines 160-163):
patterns are tried in list order against the lower-cased code. -/
def dangerousFirstMatch (code : String) : Option String :=
  dangerous_patterns.find? (fun p => containsSub (lowerL code.data) (lowerL p.data))

/-- `validate_code` (lines 96-178): substring denylist first (first match
short-circuits, naming the pattern), then the three obfuscation regexes
(generic reason), then the `__import__` call and dunder-attribute checks. -/
def validate_code (code : String) : Bool × Option String :=
  match dangerousFirstMatch code with
  | some p => (false, some (dangerOpMsg p))
  | none =>
    if searchAnywhere matchConcatAt code.data
        || searchAnywhere matchAssignExecAt code.data
        || searchAnywhere matchExecCallAt code.data then
      (false, some "Code contains potential obfuscation pattern")
    else if searchAnywhere matchImportCallAt code.data then
      (false, some "Direct __import__ calls are not allowed")
    else if searchAnywhere matchDunderAt code.data then
      (false, some "Direct access to dunder attributes is not allowed")
    else (true, none)

/-! ## Values and the capability allowlist -/

/-- Runtime values of the modelled Python fragment. `module` and `builtin`
are handles to allowlisted namespaces and primitives; `builtinsDict` is the
`__builtins__` mapping stored in the execution namespace. -/
inductive Value where
  | int (n : Int)
  | str (s : String)
  | pynone
  | builtin (name : String)
  | module (name : String)
  | builtinsDict
deriving DecidableEq

/-- Python exceptions the model distinguishes; the payload is `str(e)`. -/
inductive PyExc where
  | timeoutError (msg : String)
  | memoryError (msg : String)
  | importError (msg : String)
  | other (msg : String)
deriving DecidableEq

/-- `str(e)` of a modelled exception. -/
def PyExc.msg : PyExc → String
  | .timeoutError m => m
  | .memoryError m => m
  | .importError m => m
  | .other m => m

instance {ε α : Type} [DecidableEq ε] [DecidableEq α] : DecidableEq (Except ε α) :=
  fun a b =>
    match a, b with
    | .ok x, .ok y =>
      if h : x = y then isTrue (by rw [h]) else isFalse (fun hc => h (Except.ok.inj hc))
    | .ok _, .error _ => isFalse Except.noConfusion
    | .error _, .ok _ => isFalse Except.noConfusion
    | .error x, .error y =>
      if h : x = y then isTrue (by rw [h]) else isFalse (fun hc => h (Except.error.inj hc))

/-- Key list of `create_safe_builtins` (controller.py lines 55-73); the
spawned sandbox script builds the identical dict (secure_sandbox.py lines
91-106). -/
def safe_builtin_names : List String := [
  "abs", "all", "any", "bool", "chr",
  "dict", "enumerate", "filter", "float",
  "format", "frozenset", "hex", "int",
  "isinstance", "issubclass", "iter",
  "len", "list", "map", "max", "min",
  "next", "oct", "ord", "pow", "print",
  "range", "repr", "reversed", "round",
  "set", "slice", "sorted", "str",
  "sum", "tuple", "type", "zip",
  "Exception", "ValueError", "TypeError",
  "IndexError", "KeyError", "AttributeError",
  "RuntimeError", "ZeroDivisionError",
  "ArithmeticError", "AssertionError",
  "NameError", "StopIteration"
]

/-- `safe_module_names` of `create_safe_modules` (controller.py lines
80-84); all are standard-library modules, so every `__import__` in the
construction loop succeeds. -/
def safe_module_names : List String := [
  "math", "statistics", "random", "re", "uuid", "hashlib", "base64",
  "json", "time", "datetime", "decimal", "fractions", "collections",
  "itertools", "operator", "functools", "bisect", "heapq"
]

/-- The builtins mapping actually passed to `eval`/`exec` by the controller:
`safe_builtins` with `safe_import` bound as `__import__` (line 219). -/
def controller_exec_builtin_names : List String :=
  safe_builtin_names ++ ["__import__"]

/-- Python `str` of a list of strings, as an f-string renders it. -/
def pyListRepr (l : List String) : String :=
  "[" ++ String.intercalate ", " (l.map (fun s => "\x27" ++ s ++ "\x27")) ++ "]"

/-- Rendered module list of the controller's import error. -/
def availableModulesStr : String := pyListRepr safe_module_names

/-- Message of the controller's `safe_import` failure (line 216). -/
def importErrorMessage (name : String) : String :=
  ("Module \x27" ++ name ++ "\x27 is not available in this environment. Available modules: ")
    ++ availableModulesStr

/-- `safe_import` (controller.py lines 211-216). -/
def safe_import (name : String) : Except PyExc Value :=
  if name ∈ safe_module_names then Except.ok (Value.module name)
  else Except.error (PyExc.importError (importErrorMessage name))

/-- An `import name` statement executed by the controller's `eval`/`exec`:
the import machinery consults `__builtins__` for `__import__`, where the
controller installed `safe_import` (line 219). -/
def controllerImportStmt (name : String) : Except PyExc Value :=
  if "__import__" ∈ controller_exec_builtin_names then safe_import name
  else Except.error (PyExc.importError "__import__ not found")

/-! ## The process-isolated variant (secure_sandbox.py generated script) -/

/-- Module dict of the child script (secure_sandbox.py lines 108-137). -/
def sandbox_safe_module_names : List String :=
  ["math", "statistics", "random", "re", "json", "time", "datetime"]

/-- The child's `safe_import` (lines 140-145); note the shorter message. -/
def sandbox_safe_import (name : String) : Except PyExc Value :=
  if name ∈ sandbox_safe_module_names then Except.ok (Value.module name)
  else Except.error (PyExc.importError
    ("Module \x27" ++ name ++ "\x27 not available. Available: "
      ++ pyListRepr sandbox_safe_module_names))

/-- Builtins dict of the child script (lines 91-106): the same keys as the
controller's, and crucially with no `__import__` entry — `safe_import` is
bound only in the surrounding namespace (line 150). -/
def sandbox_builtin_names : List String := safe_builtin_names

/-- An `import name` statement inside the child: the machinery consults
`__builtins__` only (never the namespace), and the child's builtins carry
no `__import__`, so CPython raises `ImportError("__import__ not found")`. -/
def sandboxImportStmt (name : String) : Except PyExc Value :=
  if "__import__" ∈ sandbox_builtin_names then sandbox_safe_import name
  else Except.error (PyExc.importError "__import__ not found")

/-! ## Execution namespaces -/

/-- Dictionary update: the later binding is prepended, so head-first lookup
gives Python's last-write-wins semantics. -/
def dictUpdate (ns : List (String × Value)) (kvs : List (String × Value)) :
    List (String × Value) :=
  kvs.foldl (fun acc kv => kv :: acc) ns

/-- Head-first lookup in a namespace. -/
def nsLookup (ns : List (String × Value)) (x : String) : Option Value :=
  (ns.find? (fun kv => kv.fst = x)).map Prod.snd

/-- `context_data` of a request: the optional `variables` and `data`
members (controller.py lines 231-237). -/
structure Ctx where
  ctxVars : Option (List (String × Value))
  dataVal : Option Value
deriving DecidableEq

/-- `exec_namespace` construction (controller.py lines 221-237): the two
fixed keys, then the safe modules, then the context variables, then the
context `data` value. An absent/empty `context_data` is modelled as
`none`. -/
def buildNamespace (ctx : Option Ctx) : List (String × Value) :=
  let base := [("__name__", Value.str "__main__"), ("__builtins__", Value.builtinsDict)]
  let ns1 := dictUpdate base (safe_module_names.map (fun m => (m, Value.module m)))
  match ctx with
  | none => ns1
  | some c =>
    let ns2 := match c.ctxVars with
      | some vs => dictUpdate ns1 vs
      | none => ns1
    match c.dataVal with
    | some d => dictUpdate ns2 [("data", d)]
    | none => ns2

/-- Namespace of the child script (secure_sandbox.py lines 148-155):
`__builtins__`, `safe_import` as `__import__`, `__name__`, then the safe
modules. -/
def sandboxNamespace : List (String × Value) :=
  dictUpdate
    [("__name__", Value.str "__main__"),
     ("__import__", Value.builtin "__import__"),
     ("__builtins__", Value.builtinsDict)]
    (sandbox_safe_module_names.map (fun m => (m, Value.module m)))

/-! ## The expression fragment run by `eval`

The controller parses the snippet in expression mode first
(`ast.parse(code, mode='eval')`, line 253) and, on success, evaluates it
with `eval` (line 255). The fragment the spec's concrete snippets live in —
integer literals, names, binary `+`, a call with one argument — is given a
parser and evaluator below; everything outside the fragment is `none`. -/

inductive Expr where
  | intLit (n : Nat)
  | name (x : String)
  | add (a b : Expr)
  | call (f : Expr) (arg : Expr)
deriving DecidableEq

/-- Decimal value of a digit run. -/
def digitsToNat (l : List Char) : Nat :=
  l.foldl (fun acc c => acc * 10 + (c.toNat - 48)) 0

/-- Parse a decimal literal. -/
def parseNumber (l : List Char) : Option (Nat × List Char) :=
  let digits := l.takeWhile Char.isDigit
  if digits.isEmpty then none
  else some (digitsToNat digits, l.dropWhile Char.isDigit)

/-- Parse an identifier. -/
def parseIdent (l : List Char) : Option (String × List Char) :=
  match l with
  | c :: _ =>
    if c.isAlpha || c = '_' then
      some (⟨l.takeWhile isPyWord⟩, l.dropWhile isPyWord)
    else none
  | [] => none

/-- Parse an atom without call suffix: literal or name. -/
def parseSimpleAtom (l : List Char) : Option (Expr × List Char) :=
  match parseNumber l with
  | some (n, r) => some (Expr.intLit n, r)
  | none =>
    match parseIdent l with
    | some (x, r) => some (Expr.name x, r)
    | none => none

/-- Chain of `+` over parsed atoms (left-associative), by fuel. -/
def parseSumRest (atomP : List Char → Option (Expr × List Char)) :
    Nat → Expr → List Char → Option (Expr × List Char)
  | 0, acc, l => some (acc, l)
  | Nat.succ fu, acc, l =>
    match dropPySpaces l with
    | '+' :: r =>
      match atomP (dropPySpaces r) with
      | some (b, r2) => parseSumRest atomP fu (Expr.add acc b) r2
      | none => none
    | _ => some (acc, l)

/-- `simpleAtom (+ simpleAtom)*`, used for call arguments. -/
def parseSimpleSum (l : List Char) : Option (Expr × List Char) :=
  match parseSimpleAtom (dropPySpaces l) with
  | some (a, r) => parseSumRest parseSimpleAtom r.length a r
  | none => none

/-- Atom with an optional call suffix `( simpleSum )`. -/
def parseAtom (l : List Char) : Option (Expr × List Char) :=
  match parseSimpleAtom l with
  | some (a, r) =>
    match dropPySpaces r with
    | '(' :: r1 =>
      match parseSimpleSum r1 with
      | some (arg, r2) =>
        match dropPySpaces r2 with
        | ')' :: r3 => some (Expr.call a arg, r3)
        | _ => none
      | none => none
    | _ => some (a, r)
  | none => none

/-- Full expression: `atom (+ atom)*`, consuming the whole input. -/
def parseEval (code : String) : Option Expr :=
  match parseAtom (dropPySpaces code.data) with
  | some (a, r) =>
    match parseSumRest parseAtom r.length a r with
    | some (e, rest) => if (dropPySpaces rest).isEmpty then some e else none
    | none => none
  | none => none

/-- Application of the modelled allowlisted primitives; `none` for
primitives whose behaviour the model does not cover. -/
def applyBuiltin (f : String) (v : Value) : Option (Except PyExc Value) :=
  match f, v with
  | "chr", Value.int n =>
    if 0 ≤ n ∧ n < 1114112 then
      some (Except.ok (Value.str (String.singleton (Char.ofNat n.toNat))))
    else some (Except.error (PyExc.other "chr() arg not in range(0x110000)"))
  | "ord", Value.str s =>
    match s.data with
    | [c] => some (Except.ok (Value.int c.toNat))
    | _ => some (Except.error (PyExc.other "ord() expected a character"))
  | "__import__", Value.str s => some (safe_import s)
  | _, _ => none

/-- Python `+` on the modelled values (`none` outside the fragment). -/
def addValues (a b : Value) : Option (Except PyExc Value) :=
  match a, b with
  | Value.int m, Value.int n => some (Except.ok (Value.int (m + n)))
  | Value.str s, Value.str t => some (Except.ok (Value.str (s ++ t)))
  | _, _ => none

/-- Evaluation under `eval(code, {"__builtins__": safe_builtins},
exec_namespace)`: names resolve in the locals namespace first, then fall
through to the builtins dict; evaluation is left-to-right and
exception-propagating. `none` means the snippet left the modelled
fragment. -/
def evalExpr (ns : List (String × Value)) : Expr → Option (Except PyExc Value)
  | Expr.intLit n => some (Except.ok (Value.int n))
  | Expr.name x =>
    match nsLookup ns x with
    | some v => some (Except.ok v)
    | none =>
      if controller_exec_builtin_names.contains x then
        some (Except.ok (Value.builtin x))
      else
        some (Except.error (PyExc.other ("name \x27" ++ x ++ "\x27 is not defined")))
  | Expr.add a b =>
    match evalExpr ns a with
    | some (Except.ok va) =>
      match evalExpr ns b with
      | some (Except.ok vb) => addValues va vb
      | some (Except.error e) => some (Except.error e)
      | none => none
    | some (Except.error e) => some (Except.error e)
    | none => none
  | Expr.call f arg =>
    match evalExpr ns f with
    | some (Except.ok (Value.builtin bn)) =>
      match evalExpr ns arg with
      | some (Except.ok va) => applyBuiltin bn va
      | some (Except.error e) => some (Except.error e)
      | none => none
    | some (Except.error e) => some (Except.error e)
    | _ => none

/-! ## The controller's execution pipeline (execute_code_safely)

`execute_code_safely` (controller.py lines 180-327) is embedded as a
function of the snippet, the context, an explicit description of what the
Python runtime does in the guarded regions, the elapsed wall time (ms) and
the completion timestamp. The guarded-region description (`Behavior`)
distinguishes an exception raised inside the inner `try` of lines 248-264
(the `eval`/`exec` of the snippet — caught by the blanket
`except Exception`) from one raised elsewhere under the outer `try`
(caught by the outer `except TimeoutError` / `except MemoryError` /
`except Exception` handlers of lines 301-321). -/

/-- What the `eval`/`exec` of the snippet did (inner try, lines 248-263):
either it completed with a result value and captured stdout/stderr, or it
raised — and the alarm firing mid-run raises `TimeoutError` into this same
region, as does a `MemoryError` from an over-large allocation. -/
inductive RunOutcome where
  | completed (res : Value) (out : String) (errout : String)
  | raised (e : PyExc) (partialOut : String)
deriving DecidableEq

/-- Where control left the guarded code once validation passed. An
exception raised outside the inner try (during setup of lines 199-244 or
result processing of lines 277-299) reaches the outer handlers; the
snippet run itself is a `RunOutcome`. -/
inductive Behavior where
  | faultOutsideRun (e : PyExc)
  | run (r : RunOutcome)
deriving DecidableEq

/-- The terminal JSON object. `none` marks a key absent from the dict the
code returns on that path; `execution_time` is the elapsed wall-clock
milliseconds. -/
structure PyResult where
  success : Bool
  error : Option String
  output : Option String
  result : Option Value
  execution_time : Option Nat
  timestamp : Option String
deriving DecidableEq

/-- Observable side effects of a run, in order: the `emit_progress` /
`emit_status` lines and the security-relevant state changes
(`set_memory_limit`, `signal.alarm`, namespace construction, the
`eval`/`exec` itself). -/
inductive Event where
  | progress (step : String) (pct : Nat) (msg : String)
  | statusFailed (msg : String)
  | statusCompleted (msg : String)
  | memoryLimitSet
  | alarmArmed (secs : Nat)
  | alarmCancelled
  | namespaceBuilt
  | snippetRun
deriving DecidableEq

/-- Result plus event trace; the trace is `none` when the model cannot
determine how far the emission sequence got (a fault at an unspecified
point outside the snippet run). -/
structure ExecOut where
  result : PyResult
  events : Option (List Event)
deriving DecidableEq

/-- Events up to and including validation (lines 186-190). -/
def eventsPrefix : List Event :=
  [Event.progress "initializing" 0 "Starting code execution",
   Event.progress "validating" 10 "Validating code security"]

/-- Events of the successfully validated path up to the snippet run
(lines 199-246): limits, alarm, environment, optional context load,
execution. -/
def eventsSetup (hasCtx : Bool) : List Event :=
  [Event.progress "setting_up" 20 "Setting up security restrictions",
   Event.memoryLimitSet, Event.alarmArmed 10,
   Event.progress "preparing_environment" 30 "Preparing execution environment",
   Event.namespaceBuilt]
  ++ (if hasCtx then [Event.progress "loading_context" 40 "Loading context data"] else [])
  ++ [Event.progress "executing" 50 "Executing code", Event.snippetRun]

/-- The outer exception handlers (lines 301-321): `TimeoutError` and
`MemoryError` get their dedicated classifications; anything else is an
unexpected error. -/
def outerHandlerResult (e : PyExc) (t : Nat) : PyResult :=
  match e with
  | PyExc.timeoutError _ =>
    ⟨false, some "Code execution timed out (10 seconds)", none, none, some t, none⟩
  | PyExc.memoryError _ =>
    ⟨false, some "Code execution exceeded memory limit (64MB)", none, none, some t, none⟩
  | e => ⟨false, some ("Unexpected error: " ++ e.msg), none, none, some t, none⟩

/-- `execute_code_safely` (lines 180-327). `t` is the elapsed wall time in
milliseconds at return, `ts` the ISO timestamp taken in the success
branch. -/
def execute_code_safely (code : String) (ctx : Option Ctx) (b : Behavior)
    (t : Nat) (ts : String) : ExecOut :=
  match validate_code code with
  | (false, msg) =>
    -- lines 190-197: rejection before any limit, alarm, namespace or run
    let full := "Security validation failed: " ++ msg.getD ""
    ⟨⟨false, some full, none, none, some t, none⟩,
     some (eventsPrefix ++ [Event.statusFailed full])⟩
  | (true, _) =>
    match b with
    | Behavior.faultOutsideRun e =>
      -- outer handlers; the events emitted before the fault are elided
      ⟨outerHandlerResult e t, none⟩
    | Behavior.run (RunOutcome.raised e pout) =>
      -- lines 264-272: the blanket inner handler — any exception raised by
      -- the snippet run, TimeoutError and MemoryError included, lands here
      ⟨⟨false, some ("Execution error: " ++ e.msg), some pout, none, some t, none⟩,
       some (eventsPrefix ++ eventsSetup ctx.isSome ++ [Event.alarmCancelled])⟩
    | Behavior.run (RunOutcome.completed res out errout) =>
      -- lines 274-299
      let output := if errout = "" then out else out ++ "\nSTDERR: " ++ errout
      ⟨⟨true, none, some output, some res, some t, some ts⟩,
       some (eventsPrefix ++ eventsSetup ctx.isSome
         ++ [Event.alarmCancelled,
             Event.progress "processing_results" 90 "Processing execution results",
             Event.progress "completed" 100 "Code execution completed successfully",
             Event.statusCompleted "Execution finished successfully"])⟩

/-- The run outcome of a snippet that parses in expression mode, derived
from the modelled semantics: the value of `eval` with empty captured
output. `none` when the snippet is outside the modelled fragment. -/
def runEvalSnippet (code : String) (ctx : Option Ctx) : Option RunOutcome :=
  match parseEval code with
  | none => none
  | some e =>
    match evalExpr (buildNamespace ctx) e with
    | none => none
    | some (Except.ok v) => some (RunOutcome.completed v "" "")
    | some (Except.error ex) => some (RunOutcome.raised ex "")

/-- Result with the run-dependent timing fields erased, for comparing two
runs of the same snippet up to elapsed-time variance. -/
def scrubTiming (r : PyResult) : PyResult :=
  { r with execution_time := none, timestamp := none }

/-! ## Helper lemmas -/

theorem containsSub_cons (c : Char) (l p : List Char) :
    containsSub (c :: l) p = (p.isPrefixOf (c :: l) || containsSub l p) := by
  unfold containsSub
  show (List.range (l.length + 1 + 1)).any _ = _
  rw [List.range_succ_eq_map]
  simp [List.any_cons, List.any_map, Function.comp_def, List.drop_succ_cons]

theorem containsSub_append_left (s t p : List Char) (h : containsSub t p = true) :
    containsSub (s ++ t) p = true := by
  induction s with
  | nil => simpa using h
  | cons c s ih =>
    rw [List.cons_append, containsSub_cons]
    simp [ih]

theorem strContains_append_left (s t p : String) (h : strContains t p = true) :
    strContains (s ++ t) p = true := by
  have hd : (s ++ t).data = s.data ++ t.data := rfl
  unfold strContains at h ⊢
  rw [hd]
  exact containsSub_append_left _ _ _ h

/-- A code string containing (case-insensitively) some denylisted pattern
is rejected by `validate_code`. -/
theorem validate_false_of_pattern (code p : String)
    (hmem : p ∈ dangerous_patterns)
    (hmatch : containsSub (lowerL code.data) (lowerL p.data) = true) :
    (validate_code code).fst = false := by
  unfold validate_code dangerousFirstMatch
  rcases hfind : dangerous_patterns.find?
      (fun q => containsSub (lowerL code.data) (lowerL q.data)) with _ | q
  · have h2 := List.find?_eq_none.mp hfind p hmem
    simp [hmatch] at h2
  · rw [hfind]

/-! ## Claim theorems -/

/-- C1: when the 10-second wall-clock alarm expires while the snippet is
being run by `eval`/`exec`, the handler's `TimeoutError` is raised inside
the inner `try` of lines 248-264 and is caught by its blanket
`except Exception`, so the caller receives the generic
"Execution error: ..." classification — the dedicated TimedOut
classification "Code execution timed out (10 seconds)" is produced only
when the same exception lands outside the snippet run (outer handler,
lines 301-307). This refutes the claim that deadline expiry during the
snippet yields the TimedOut classification. -/
theorem claim1_exec_timeout_is_generic (t : Nat) (ts : String) :
    validate_code "while True: pass" = (true, none)
    ∧ (execute_code_safely "while True: pass" none
        (Behavior.run (RunOutcome.raised
          (PyExc.timeoutError "Code execution timed out") "")) t ts).result
      = ⟨false, some "Execution error: Code execution timed out", some "", none, some t, none⟩
    ∧ (execute_code_safely "while True: pass" none
        (Behavior.faultOutsideRun
          (PyExc.timeoutError "Code execution timed out")) t ts).result
      = ⟨false, some "Code execution timed out (10 seconds)", none, none, some t, none⟩
    ∧ ("Execution error: Code execution timed out"
        ≠ "Code execution timed out (10 seconds)") := by
  have hval : validate_code "while True: pass" = (true, none) := by decide
  refine ⟨hval, ?_, ?_, by decide⟩
  · unfold execute_code_safely
    rw [hval]
    rfl
  · unfold execute_code_safely
    rw [hval]
    rfl

/-- C2: a `MemoryError` raised while the snippet runs (an allocation past
the 64MB address-space ceiling) is likewise caught by the inner blanket
`except Exception`, giving the generic "Execution error: ..."
classification; the dedicated ResourceExceeded classification
"Code execution exceeded memory limit (64MB)" (outer handler, lines
308-314) is unreachable from the snippet run. The final conjunct shows the
two classifications differ for every exception text. -/
theorem claim2_exec_memory_is_generic (m : String) (t : Nat) (ts : String) :
    validate_code "x = [0]*10**9" = (true, none)
    ∧ (execute_code_safely "x = [0]*10**9" none
        (Behavior.run (RunOutcome.raised (PyExc.memoryError m) "")) t ts).result
      = ⟨false, some ("Execution error: " ++ m), some "", none, some t, none⟩
    ∧ (execute_code_safely "x = [0]*10**9" none
        (Behavior.faultOutsideRun (PyExc.memoryError m)) t ts).result
      = ⟨false, some "Code execution exceeded memory limit (64MB)", none, none, some t, none⟩
    ∧ ("Execution error: " ++ m ≠ "Code execution exceeded memory limit (64MB)") := by
  have hval : validate_code "x = [0]*10**9" = (true, none) := by decide
  refine ⟨hval, ?_, ?_, ?_⟩
  · unfold execute_code_safely
    rw [hval]
    rfl
  · unfold execute_code_safely
    rw [hval]
    rfl
  · intro h
    have h2 := congrArg String.data h
    simp at h2

/-- C3 (amended): a snippet rejected by `validate_code` makes
`execute_code_safely` return the rejection having emitted only the
initializing/validating progress events and the failure status — no
resource limit installed, no alarm armed, no namespace built, no snippet
run; and whenever the rejection came from the substring denylist scan, the
reason names the first matching pattern in list order. (For an
obfuscation-regex rejection the reason is a generic message; see the
counterexample.) -/
theorem claim3_rejection_short_circuits (code : String) (ctx : Option Ctx)
    (b : Behavior) (t : Nat) (ts : String) (reason : String)
    (h : validate_code code = (false, some reason)) :
    (execute_code_safely code ctx b t ts).events
      = some (eventsPrefix
          ++ [Event.statusFailed ("Security validation failed: " ++ reason)])
    ∧ (execute_code_safely code ctx b t ts).result
      = ⟨false, some ("Security validation failed: " ++ reason), none, none, some t, none⟩
    ∧ (∀ p, dangerousFirstMatch code = some p → reason = dangerOpMsg p) := by
  refine ⟨?_, ?_, ?_⟩
  · unfold execute_code_safely
    rw [h]
    rfl
  · unfold execute_code_safely
    rw [h]
    rfl
  · intro p hp
    have h2 := h
    unfold validate_code at h2
    rw [hp] at h2
    simp at h2
    exact h2.symm

/-- C3 witness: the rejection of `import os`, instantiated. -/
theorem claim3_witness :
    (execute_code_safely "import os" none
        (Behavior.run (RunOutcome.completed Value.pynone "" "")) 5 "T").events
      = some (eventsPrefix ++ [Event.statusFailed
          "Security validation failed: Code contains potentially dangerous operation: import os"])
    ∧ (execute_code_safely "import os" none
        (Behavior.run (RunOutcome.completed Value.pynone "" "")) 5 "T").result
      = ⟨false,
         some "Security validation failed: Code contains potentially dangerous operation: import os",
         none, none, some 5, none⟩ :=
  ⟨(claim3_rejection_short_circuits "import os" none
      (Behavior.run (RunOutcome.completed Value.pynone "" "")) 5 "T"
      "Code contains potentially dangerous operation: import os" (by decide)).1,
   (claim3_rejection_short_circuits "import os" none
      (Behavior.run (RunOutcome.completed Value.pynone "" "")) 5 "T"
      "Code contains potentially dangerous operation: import os" (by decide)).2.1⟩

/-- C3 counterexample: the snippet `"a"+"b"` is rejected only by the first
obfuscation regex, and the rejection reason is the generic
"Code contains potential obfuscation pattern", which names none of the
regex patterns — refuting "the rejection reason names that triggering
pattern" for the obfuscation-regex half of the denylist. -/
theorem claim3_counterexample :
    validate_code "\"a\"+\"b\"" = (false, some "Code contains potential obfuscation pattern")
    ∧ obfuscation_patterns.all
        (fun q => !(strContains "Code contains potential obfuscation pattern" q)) = true := by
  exact ⟨by decide, by decide⟩

/-- C4 (amended): every terminal outcome of `execute_code_safely` carries
the elapsed-time field — including the ValidationRejected outcome (line
196 adds `execution_time` to the rejection dict) — and exactly one of the
success/failure shapes is populated: `success = true` exactly when no
`error` is present. -/
theorem claim4_elapsed_always_present (code : String) (ctx : Option Ctx)
    (b : Behavior) (t : Nat) (ts : String) :
    ((execute_code_safely code ctx b t ts).result).execution_time = some t
    ∧ (((execute_code_safely code ctx b t ts).result).success = true
        ↔ ((execute_code_safely code ctx b t ts).result).error = none) := by
  unfold execute_code_safely
  rcases hv : validate_code code with ⟨ok, msg⟩
  cases ok
  · simp
  · cases b with
    | faultOutsideRun e => cases e <;> simp [outerHandlerResult]
    | run r =>
      cases r with
      | raised e pout => simp
      | completed res out errout => simp

/-- C4 counterexample: a ValidationRejected outcome (here for `import os`)
carries `execution_time`, refuting "the elapsed-time field is absent if
and only if the outcome is ValidationRejected". -/
theorem claim4_counterexample :
    (execute_code_safely "import os" none
        (Behavior.run (RunOutcome.completed Value.pynone "" "")) 5 "T").result
      = ⟨false,
         some "Security validation failed: Code contains potentially dangerous operation: import os",
         none, none, some 5, none⟩
    ∧ ((execute_code_safely "import os" none
        (Behavior.run (RunOutcome.completed Value.pynone "" "")) 5 "T").result).execution_time
      ≠ none := by
  exact ⟨by decide, by decide⟩

/-- C5: `{"code": "2 + 2"}` — the snippet passes validation, parses in
expression mode, `eval` yields the integer 4 with no captured stdout, and
the terminal response is success with `result` 4 and empty `output`. -/
theorem claim5_two_plus_two (t : Nat) (ts : String) :
    validate_code "2 + 2" = (true, none)
    ∧ parseEval "2 + 2" = some (Expr.add (Expr.intLit 2) (Expr.intLit 2))
    ∧ runEvalSnippet "2 + 2" none = some (RunOutcome.completed (Value.int 4) "" "")
    ∧ (execute_code_safely "2 + 2" none
        (Behavior.run (RunOutcome.completed (Value.int 4) "" "")) t ts).result
      = ⟨true, none, some "", some (Value.int 4), some t, some ts⟩ := by
  have hval : validate_code "2 + 2" = (true, none) := by decide
  refine ⟨hval, by decide, by decide, ?_⟩
  unfold execute_code_safely
  rw [hval]
  rfl

/-- The context of C6: `context_data = {variables: {"a": 3, "b": 4}}`. -/
def ctx6 : Ctx := ⟨some [("a", Value.int 3), ("b", Value.int 4)], none⟩

/-- C6: with context variables a=3, b=4, the snippet `a + b` passes
validation, the variables are injected into the execution namespace, and
the run succeeds with result 7. -/
theorem claim6_context_variables (t : Nat) (ts : String) :
    validate_code "a + b" = (true, none)
    ∧ nsLookup (buildNamespace (some ctx6)) "a" = some (Value.int 3)
    ∧ nsLookup (buildNamespace (some ctx6)) "b" = some (Value.int 4)
    ∧ runEvalSnippet "a + b" (some ctx6) = some (RunOutcome.completed (Value.int 7) "" "")
    ∧ (execute_code_safely "a + b" (some ctx6)
        (Behavior.run (RunOutcome.completed (Value.int 7) "" "")) t ts).result
      = ⟨true, none, some "", some (Value.int 7), some t, some ts⟩ := by
  have hval : validate_code "a + b" = (true, none) := by decide
  refine ⟨hval, by decide, by decide, by decide, ?_⟩
  unfold execute_code_safely
  rw [hval]
  rfl

/-- C7 (amended): in the in-process variant an import of a module outside
the allowed set raises an `ImportError` whose message enumerates the full
allowed module list, and the terminal outcome carries that message wrapped
in the generic "Execution error: " prefix; in the process-isolated variant
the same import — indeed any import — instead fails with
`"__import__ not found"`, because the child's `__builtins__` has no
`__import__` entry, so its enumerating `safe_import` is never consulted. -/
theorem claim7_import_error_enumerates (name : String) (t : Nat) (ts : String)
    (h : name ∉ safe_module_names) :
    controllerImportStmt name = Except.error (PyExc.importError (importErrorMessage name))
    ∧ (∀ m, m ∈ safe_module_names → strContains (importErrorMessage name) m = true)
    ∧ (execute_code_safely "import numpy" none
        (Behavior.run (RunOutcome.raised
          (PyExc.importError (importErrorMessage name)) "")) t ts).result.error
      = some ("Execution error: " ++ importErrorMessage name)
    ∧ sandboxImportStmt name = Except.error (PyExc.importError "__import__ not found") := by
  have hval : validate_code "import numpy" = (true, none) := by decide
  refine ⟨?_, ?_, ?_, ?_⟩
  · have hb : "__import__" ∈ controller_exec_builtin_names := by decide
    simp [controllerImportStmt, hb, safe_import, h]
  · intro m hm
    apply strContains_append_left
    fin_cases hm <;> decide
  · unfold execute_code_safely
    rw [hval]
    rfl
  · have hb : "__import__" ∉ sandbox_builtin_names := by decide
    simp [sandboxImportStmt, hb]

/-- C7 witness: instantiated at the module name `numpy`. -/
theorem claim7_witness :
    controllerImportStmt "numpy"
      = Except.error (PyExc.importError (importErrorMessage "numpy"))
    ∧ sandboxImportStmt "numpy"
      = Except.error (PyExc.importError "__import__ not found") :=
  ⟨(claim7_import_error_enumerates "numpy" 1 "T" (by decide)).1,
   (claim7_import_error_enumerates "numpy" 1 "T" (by decide)).2.2.2⟩

/-- C7 counterexample: in the process-isolated variant an import of a
namespace outside the allowed set fails with `"__import__ not found"`,
a message that does not enumerate the allowed modules (it does not even
contain "math") — refuting the claim for that variant. -/
theorem claim7_counterexample :
    sandboxImportStmt "numpy" = Except.error (PyExc.importError "__import__ not found")
    ∧ strContains "__import__ not found" "math" = false := by
  exact ⟨by decide, by decide⟩

/-- C8: re-running the same snippet with the same context and the same
snippet behaviour (no external shared state) yields terminal outcomes
equal once the elapsed-time and timestamp fields are erased. -/
theorem claim8_identical_reruns (code : String) (ctx : Option Ctx) (b : Behavior)
    (t1 : Nat) (ts1 : String) (t2 : Nat) (ts2 : String) :
    scrubTiming ((execute_code_safely code ctx b t1 ts1).result)
      = scrubTiming ((execute_code_safely code ctx b t2 ts2).result) := by
  unfold execute_code_safely
  rcases hv : validate_code code with ⟨ok, msg⟩
  cases ok
  · rfl
  · cases b with
    | faultOutsideRun e => cases e <;> rfl
    | run r =>
      cases r with
      | raised e pout => rfl
      | completed res out errout => rfl

/-- C9 (amended): every snippet whose lower-cased text contains one of the
literal substrings `chr(`, `ord(`, `hex(`, `oct(`, `type(`, `isinstance(`,
`issubclass(` is rejected by `validate_code`, each of those substrings is a
denylisted pattern, and each named primitive is nonetheless granted by the
safe-builtins allowlist. (The primitives remain reachable by a direct call
written with whitespace before the parenthesis — see the
counterexample.) -/
theorem claim9_denylisted_but_granted (s name : String)
    (hn : name ∈ (["chr", "ord", "hex", "oct", "type", "isinstance", "issubclass"] : List String))
    (hc : containsSub (lowerL s.data) (lowerL (name ++ "(").data) = true) :
    (validate_code s).fst = false
    ∧ (name ++ "(") ∈ dangerous_patterns
    ∧ name ∈ safe_builtin_names := by
  refine ⟨?_, ?_, ?_⟩
  · refine validate_false_of_pattern s (name ++ "(") ?_ hc
    fin_cases hn <;> decide
  · fin_cases hn <;> decide
  · fin_cases hn <;> decide

/-- C9 witness: instantiated at the snippet `chr(65)`. -/
theorem claim9_witness :
    (validate_code "chr(65)").fst = false
    ∧ ("chr" ++ "(") ∈ dangerous_patterns
    ∧ "chr" ∈ safe_builtin_names :=
  claim9_denylisted_but_granted "chr(65)" "chr" (by decide) (by decide)

/-- C9 counterexample: `chr (65)` — a direct call of the allowed primitive
`chr`, merely written with a space before the parenthesis — passes
validation, parses as a call of `chr`, evaluates to "A", and the terminal
outcome is success: the primitive is reachable by direct call, refuting
"the primitive is unreachable by direct call". -/
theorem claim9_counterexample :
    validate_code "chr (65)" = (true, none)
    ∧ parseEval "chr (65)" = some (Expr.call (Expr.name "chr") (Expr.intLit 65))
    ∧ runEvalSnippet "chr (65)" none = some (RunOutcome.completed (Value.str "A") "" "")
    ∧ safe_builtin_names.contains "chr" = true
    ∧ (execute_code_safely "chr (65)" none
        (Behavior.run (RunOutcome.completed (Value.str "A") "" "")) 12 "T").result
      = ⟨true, none, some "", some (Value.str "A"), some 12, some "T"⟩ := by
  exact ⟨by decide, by decide, by decide, by decide, by decide⟩

/-- C10: in the process-isolated variant the builtins mapping passed to
`eval`/`exec` has no `__import__` entry, so every snippet import statement
— the allowed module `math` included — raises
`ImportError("__import__ not found")`; the allowed modules are usable only
through the names pre-injected into the namespace (e.g. `math` is bound
there). -/
theorem claim10_sandbox_import_always_fails :
    "__import__" ∉ sandbox_builtin_names
    ∧ (∀ name : String,
        sandboxImportStmt name = Except.error (PyExc.importError "__import__ not found"))
    ∧ nsLookup sandboxNamespace "math" = some (Value.module "math") := by
  have hb : "__import__" ∉ sandbox_builtin_names := by decide
  refine ⟨hb, ?_, by decide⟩
  intro name
  simp [sandboxImportStmt, hb]

end CodeExec
